import Mathlib

/-!
Verification of the `logout` crate (src/src/logout.rs): a simple backend for
the `log` facade that writes one formatted line per record to a mutex-guarded
sink, with best-effort fallback to stderr on failure.

The Rust source is shallowly embedded: the generic `Logger<T>` becomes a
Lean structure parametric in the sink type; the process-global facade state
(`log::set_max_level` / `log::set_boxed_logger`) becomes an explicit
`GlobalLogState` threaded through `enable`; the mutex, possible write
failure and the external `time` crate results become explicit inputs of the
log path.
-/

namespace Logout

/-- The facade's `log::Level`: Error is most urgent, Trace least. -/
inductive Level where
  | Error
  | Warn
  | Info
  | Debug
  | Trace
deriving DecidableEq, Repr

/-- The usize representation used by the `log` crate for ordering
(`Error = 1`, ..., `Trace = 5`). -/
def Level.toNat : Level → Nat
  | .Error => 1
  | .Warn => 2
  | .Info => 3
  | .Debug => 4
  | .Trace => 5

/-- The severity name as rendered by the facade's `Display` impl
(`record.level()` in the format string). -/
def Level.name : Level → String
  | .Error => "ERROR"
  | .Warn => "WARN"
  | .Info => "INFO"
  | .Debug => "DEBUG"
  | .Trace => "TRACE"

/-- The facade's `log::LevelFilter`: a threshold, `Off = 0` below every level. -/
inductive LevelFilter where
  | Off
  | Error
  | Warn
  | Info
  | Debug
  | Trace
deriving DecidableEq, Repr

/-- The usize representation used by the `log` crate for ordering
(`Off = 0`, ..., `Trace = 5`). -/
def LevelFilter.toNat : LevelFilter → Nat
  | .Off => 0
  | .Error => 1
  | .Warn => 2
  | .Info => 3
  | .Debug => 4
  | .Trace => 5

/-- The `log` crate's `Level <= LevelFilter` comparison: by usize value. -/
def levelLeFilter (l : Level) (f : LevelFilter) : Bool :=
  l.toNat ≤ f.toNat

/-- The `TimeFormat` enum from logout.rs: the closed choice of timestamp rendering. -/
inductive TimeFormat where
  | Rfc2822
  | Rfc3339
deriving DecidableEq, Repr

/-- An error from the `time` crate when resolving the local UTC offset
(`OffsetDateTime::now_local()` failing). -/
inductive OffsetError where
  | indeterminate
deriving DecidableEq, Repr

/-- An error from the `time` crate when rendering an instant
(`OffsetDateTime::format` failing). -/
inductive FormatError where
  | formatFailed
deriving DecidableEq, Repr

/-- An instant as produced by the `time` crate. The embedding records the
results the external crate would return for the two renderings the code can
request (`now.format(&Rfc2822)` / `now.format(&Rfc3339)`). -/
structure Instant where
  fmtRfc2822 : Except FormatError String
  fmtRfc3339 : Except FormatError String
deriving Repr

/-- The timestamp acquisition in `Logger::log` (lines 147-150):
`OffsetDateTime::now_local()` with a fallback to `OffsetDateTime::now_utc()`
on any offset-resolution error. Both external calls are explicit inputs. -/
def nowInstant (localNow : Except OffsetError Instant) (utcNow : Instant) : Instant :=
  match localNow with
  | .ok nowLocal => nowLocal
  | .error _ => utcNow

/-- The `match self.time_format` dispatch in `Logger::log` (lines 152-155). -/
def formatInstant (fmt : TimeFormat) (now : Instant) : Except FormatError String :=
  match fmt with
  | .Rfc2822 => now.fmtRfc2822
  | .Rfc3339 => now.fmtRfc3339

/-- The calling thread as observed by `std::thread::current()`: optional
name, and the `Debug` rendering of its `ThreadId`. -/
structure ThreadInfo where
  name : Option String
  id : String
deriving DecidableEq, Repr

/-- A record delivered by the facade: severity and pre-rendered message. -/
structure Record where
  level : Level
  msg : String
deriving DecidableEq, Repr

/-- The line composed by `Logger::log` (lines 157-164):
`format!("[{}] ({} {:?}) [{}] {}", now.unwrap_or("time error"), name.unwrap_or("<unnamed>"), id, record.level(), record.args())`. -/
def formatLine (timeResult : Except FormatError String) (th : ThreadInfo)
    (lvl : Level) (msg : String) : String :=
  "[" ++ (match timeResult with | .ok s => s | .error _ => "time error")
    ++ "] (" ++ th.name.getD "<unnamed>" ++ " " ++ th.id
    ++ ") [" ++ lvl.name ++ "] " ++ msg

/-- The `Logger<T>` struct from logout.rs. The `Mutex` wrapper around the sink is
dropped here; lock state is part of the runtime `SinkState` instead. -/
structure Logger (T : Type) where
  sink : T
  time_format : TimeFormat
  level : LevelFilter
deriving DecidableEq, Repr

/-- The process standard-error handle (`std::io::stderr()`), the sink type
of the default logger. -/
inductive Stderr where
  | handle
deriving DecidableEq, Repr

/-- An open file handle, identified by the path it was opened at. -/
structure File where
  path : String
deriving DecidableEq, Repr

/-- Method `Logger::new` (lines 99-105). -/
def Logger.new {T : Type} (sink : T) : Logger T :=
  { sink := sink, time_format := .Rfc2822, level := .Info }

/-- Function `new_log()` (lines 81-83): the default constructor. -/
def new_log : Logger Stderr :=
  Logger.new Stderr.handle

/-- An I/O error surfaced by `OpenOptions::open`. -/
inductive IoError where
  | openFailed
deriving DecidableEq, Repr

/-- The file system visible to `to_file`: existing files (path with their
byte contents) and the paths on which opening fails (permissions etc.). -/
structure FS where
  files : List (String × String)
  failPaths : List String
deriving DecidableEq, Repr

/-- Contents of the file at a path, if present. -/
def FS.lookup (fs : FS) (p : String) : Option String :=
  (fs.files.find? (fun e => e.1 = p)).map (·.2)

/-- The call `OpenOptions::new().append(true).create(true).open(path)` made by
`Logger::to_file` (line 108): fails on a failing path; otherwise opens the
existing file untouched, or creates an empty one if absent. -/
def openAppend (fs : FS) (p : String) : Except IoError (FS × File) :=
  if p ∈ fs.failPaths then
    .error .openFailed
  else
    match fs.lookup p with
    | some _ => .ok (fs, { path := p })
    | none => .ok ({ fs with files := fs.files ++ [(p, "")] }, { path := p })

/-- Method `Logger::to_file` (lines 107-114): open the path for append and build a
new logger around the resulting file, carrying the rest of the
configuration forward; an open error is returned to the caller. -/
def Logger.to_file {T : Type} (l : Logger T) (fs : FS) (p : String) :
    Except IoError (FS × Logger File) :=
  match openAppend fs p with
  | .error e => .error e
  | .ok (fs', f) =>
      .ok (fs', { sink := f, time_format := l.time_format, level := l.level })

/-- Method `Logger::sink` (lines 116-122): replace the destination with any
writable sink, carrying the rest of the configuration forward. -/
def Logger.with_sink {T U : Type} (l : Logger T) (sink : U) : Logger U :=
  { sink := sink, time_format := l.time_format, level := l.level }

/-- Method `Logger::time_format` (lines 124-130). -/
def Logger.with_time_format {T : Type} (l : Logger T) (fmt : TimeFormat) : Logger T :=
  { sink := l.sink, time_format := fmt, level := l.level }

/-- Method `Logger::max_log_level` (lines 132-138). -/
def Logger.max_log_level {T : Type} (l : Logger T) (lv : LevelFilter) : Logger T :=
  { sink := l.sink, time_format := l.time_format, level := lv }

/-- The `SetLoggerError` type from the `log` facade: returned by `set_boxed_logger`
when a logger was already installed in this process. -/
inductive SetLoggerError where
  | alreadyInstalled
deriving DecidableEq, Repr

/-- The process-global state owned by the `log` facade: the max-level flag
set by `log::set_max_level` and the one-shot logger slot set by
`log::set_boxed_logger`. -/
structure GlobalLogState (T : Type) where
  maxLevel : LevelFilter
  logger : Option (Logger T)
deriving DecidableEq, Repr

/-- The facade state at process start: max level `Off`, no logger. -/
def GlobalLogState.initial (T : Type) : GlobalLogState T :=
  { maxLevel := .Off, logger := none }

/-- Method `Logger::enable` (lines 140-144): first `log::set_max_level(self.level)`
unconditionally, then `log::set_boxed_logger(Box::new(self))`, which fails
if a logger was already installed and installs `self` otherwise. -/
def Logger.enable {T : Type} (l : Logger T) (g : GlobalLogState T) :
    GlobalLogState T × Except SetLoggerError Unit :=
  let g1 : GlobalLogState T := { g with maxLevel := l.level }
  match g1.logger with
  | some _ => (g1, .error .alreadyInstalled)
  | none => ({ g1 with logger := some l }, .ok ())

/-- Runtime state of the mutex-guarded sink at log time: whether the lock
is poisoned (`self.sink.lock()` returns `Err`), whether `writeln!` fails
(and with which error message), and the lines written so far. -/
structure SinkState where
  poisoned : Bool
  writeErr : Option String
  lines : List String
deriving DecidableEq, Repr

/-- The observable world of one log call: the guarded sink plus the lines
emitted to the process standard-error stream by `eprintln!`. -/
structure World where
  sinkSt : SinkState
  stderr : List String
deriving DecidableEq, Repr

/-- The inherent `Logger::log` (lines 146-179): sample the instant, render
it per the configured format, compose the line, then write it under the
lock — falling back to stderr (with a diagnostic) on write failure, and
skipping the sink entirely on a poisoned lock. Returns the new world; the
function has no error to propagate. -/
def Logger.log {T : Type} (l : Logger T) (th : ThreadInfo)
    (localNow : Except OffsetError Instant) (utcNow : Instant)
    (r : Record) (w : World) : World :=
  let now := nowInstant localNow utcNow
  let nowStr := formatInstant l.time_format now
  let msg := formatLine nowStr th r.level r.msg
  if w.sinkSt.poisoned then
    { w with stderr := w.stderr ++ [msg] }
  else
    match w.sinkSt.writeErr with
    | some e =>
        { w with stderr := w.stderr
            ++ ["error writing to sink, falling back to stderr: " ++ e, msg] }
    | none =>
        { w with sinkSt := { w.sinkSt with lines := w.sinkSt.lines ++ [msg] } }

/-- Trait method `Log::enabled` for `Logger` (lines 183-185): `metadata.level() <= self.level`. -/
def Logger.enabled {T : Type} (l : Logger T) (lvl : Level) : Bool :=
  levelLeFilter lvl l.level

/-- The trait method `Log::log` for `Logger` (lines 187-191): dispatch to
the inherent `Logger::log` only when the record's severity is enabled. -/
def Log.log {T : Type} (l : Logger T) (th : ThreadInfo)
    (localNow : Except OffsetError Instant) (utcNow : Instant)
    (r : Record) (w : World) : World :=
  if l.enabled r.level then l.log th localNow utcNow r w else w

/-- Trait method `Log::flush` for `Logger` (line 193): a no-op. -/
def Log.flush {T : Type} (_l : Logger T) (w : World) : World :=
  w

/-- A concrete instant whose two renderings both succeed. -/
def okInstant : Instant :=
  { fmtRfc2822 := .ok "Sun, 12 Oct 2025 10:00:00 +0000"
    fmtRfc3339 := .ok "2025-10-12T10:00:00Z" }

/-- A concrete instant whose two renderings both fail. -/
def badInstant : Instant :=
  { fmtRfc2822 := .error .formatFailed, fmtRfc3339 := .error .formatFailed }

/-- A concrete named calling thread. -/
def mainThread : ThreadInfo :=
  { name := some "main", id := "ThreadId(1)" }

/-- A world with a healthy, empty sink and empty stderr. -/
def emptyWorld : World :=
  { sinkSt := { poisoned := false, writeErr := none, lines := [] }, stderr := [] }

/-- C5: new_log yields the stderr destination, the RFC2822 time format and
the Info threshold. -/
theorem c5_new_log_defaults :
    new_log.sink = Stderr.handle
    ∧ new_log.time_format = TimeFormat.Rfc2822
    ∧ new_log.level = LevelFilter.Info :=
  ⟨rfl, rfl, rfl⟩

/-- C9: the timestamp source is total; it returns the local-offset instant
when offset resolution succeeds and falls back to the UTC instant on any
offset-resolution error. -/
theorem c9_now_total_with_utc_fallback (utcNow : Instant) :
    (∀ t : Instant, nowInstant (Except.ok t) utcNow = t)
    ∧ (∀ e : OffsetError, nowInstant (Except.error e) utcNow = utcNow) :=
  ⟨fun _ => rfl, fun _ => rfl⟩

/-- C10: with threshold Off, `enabled` is false for every severity, and the
dispatching `Log::log` leaves the world (sink and stderr) untouched. -/
theorem c10_off_filters_everything {T : Type} (l : Logger T) (lvl : Level)
    (th : ThreadInfo) (localNow : Except OffsetError Instant) (utcNow : Instant)
    (m : String) (w : World) :
    (l.max_log_level .Off).enabled lvl = false
    ∧ Log.log (l.max_log_level .Off) th localNow utcNow { level := lvl, msg := m } w = w := by
  have h : (l.max_log_level .Off).enabled lvl = false := by
    cases lvl <;> rfl
  exact ⟨h, by simp [Log.log, h]⟩

/-- C1: the line actually composed by `Logger::log` puts the level in
square brackets (`format!` string `"[{}] ({} {:?}) [{}] {}"`), so it is not
of the claimed canonical form `[<time>] (<thread-name> <thread-id>)
<level> <message>` stated both by the spec and by the crate's own module
documentation (logout.rs line 10). Evaluated at a concrete record. -/
theorem c1_level_field_is_bracketed :
    formatLine (Except.ok "Sun, 12 Oct 2025 10:00:00 +0000") mainThread .Info "hello"
      = "[Sun, 12 Oct 2025 10:00:00 +0000] (main ThreadId(1)) [INFO] hello"
    ∧ formatLine (Except.ok "Sun, 12 Oct 2025 10:00:00 +0000") mainThread .Info "hello"
      ≠ "[Sun, 12 Oct 2025 10:00:00 +0000] (main ThreadId(1)) INFO hello" :=
  ⟨rfl, by decide⟩

/-- C2 counterexample: a first `enable` at the default Info threshold
succeeds; a second `enable` at threshold Trace fails with the
distinguishable already-installed error, yet the process-wide max level has
been overwritten from Info to Trace, so the first installation's effective
global minimum severity is not left unchanged. -/
theorem c2_second_enable_changes_max_level :
    (new_log.enable (GlobalLogState.initial Stderr)).2 = Except.ok ()
    ∧ ((new_log.enable (GlobalLogState.initial Stderr)).1).maxLevel = LevelFilter.Info
    ∧ ((new_log.max_log_level .Trace).enable
        ((new_log.enable (GlobalLogState.initial Stderr)).1)).2
        = Except.error SetLoggerError.alreadyInstalled
    ∧ (((new_log.max_log_level .Trace).enable
        ((new_log.enable (GlobalLogState.initial Stderr)).1)).1).maxLevel
        = LevelFilter.Trace :=
  ⟨rfl, rfl, rfl, rfl⟩

/-- C2 (amended): `enable` always sets the process-wide max level to the
configured threshold first; when no sink is installed it installs this
configuration and succeeds, and when a sink is already installed it fails
with the distinguishable already-installed error and leaves the installed
sink unchanged — but the global max level has still been overwritten with
the new configuration's threshold. -/
theorem c2_enable_one_shot {T : Type} (l l0 : Logger T) (g : GlobalLogState T) :
    (g.logger = none →
        (l.enable g).2 = Except.ok ()
        ∧ (l.enable g).1 = { maxLevel := l.level, logger := some l })
    ∧ (g.logger = some l0 →
        (l.enable g).2 = Except.error SetLoggerError.alreadyInstalled
        ∧ ((l.enable g).1).logger = some l0
        ∧ ((l.enable g).1).maxLevel = l.level) := by
  constructor
  · intro h
    simp [Logger.enable, h]
  · intro h
    simp [Logger.enable, h]

/-- Witness for c2_enable_one_shot: both branches at concrete states. -/
theorem c2_enable_one_shot_witness :
    ((new_log.enable (GlobalLogState.initial Stderr)).2 = Except.ok ()
      ∧ (new_log.enable (GlobalLogState.initial Stderr)).1
          = { maxLevel := LevelFilter.Info, logger := some new_log })
    ∧ (((new_log.max_log_level .Trace).enable
          { maxLevel := LevelFilter.Info, logger := some new_log }).2
          = Except.error SetLoggerError.alreadyInstalled
      ∧ (((new_log.max_log_level .Trace).enable
          { maxLevel := LevelFilter.Info, logger := some new_log }).1).logger
          = some new_log
      ∧ (((new_log.max_log_level .Trace).enable
          { maxLevel := LevelFilter.Info, logger := some new_log }).1).maxLevel
          = LevelFilter.Trace) :=
  ⟨(c2_enable_one_shot new_log new_log (GlobalLogState.initial Stderr)).1 rfl,
   (c2_enable_one_shot (new_log.max_log_level .Trace) new_log
      { maxLevel := LevelFilter.Info, logger := some new_log }).2 rfl⟩

/-- C4: `enabled` holds exactly when the record's severity is at least as
urgent as the threshold (Level usize value at most the LevelFilter usize
value); it is unchanged by replacing the destination and the time format;
and when the record's severity is not enabled, the dispatching `Log::log`
leaves the world (sink and stderr) untouched. -/
theorem c4_enabled_iff_at_most_threshold {T U : Type} (l : Logger T) (s : U)
    (fmt : TimeFormat) (lvl : Level) (th : ThreadInfo)
    (localNow : Except OffsetError Instant) (utcNow : Instant)
    (r : Record) (w : World) :
    (l.enabled lvl = true ↔ lvl.toNat ≤ l.level.toNat)
    ∧ ((l.with_sink s).with_time_format fmt).enabled lvl = l.enabled lvl
    ∧ (l.enabled r.level = false → Log.log l th localNow utcNow r w = w) := by
  refine ⟨?_, rfl, ?_⟩
  · simp [Logger.enabled, levelLeFilter]
  · intro h
    simp [Log.log, h]

/-- Witness for c4_enabled_iff_at_most_threshold: the default Info logger
does not enable Debug, and a Debug record leaves the world untouched. -/
theorem c4_enabled_iff_at_most_threshold_witness :
    Log.log new_log mainThread (Except.error OffsetError.indeterminate) okInstant
      { level := Level.Debug, msg := "x" } emptyWorld = emptyWorld :=
  (c4_enabled_iff_at_most_threshold new_log Stderr.handle TimeFormat.Rfc3339
      Level.Error mainThread (Except.error OffsetError.indeterminate) okInstant
      { level := Level.Debug, msg := "x" } emptyWorld).2.2 rfl

/-- C3: log-time failures are absorbed. On a poisoned lock the sink is
skipped entirely and the formatted line goes to stderr alone; on a write
failure the sink is left as it was and stderr receives a short diagnostic
followed by the same formatted line. In both cases nothing is returned to
the caller — `Logger::log` is total and only updates the world. -/
theorem c3_log_failures_fall_back_to_stderr {T : Type} (l : Logger T)
    (th : ThreadInfo) (localNow : Except OffsetError Instant) (utcNow : Instant)
    (r : Record) (w : World) :
    (w.sinkSt.poisoned = true →
        (l.log th localNow utcNow r w).sinkSt = w.sinkSt
        ∧ (l.log th localNow utcNow r w).stderr = w.stderr
            ++ [formatLine (formatInstant l.time_format (nowInstant localNow utcNow))
                  th r.level r.msg])
    ∧ (∀ e : String, w.sinkSt.poisoned = false → w.sinkSt.writeErr = some e →
        (l.log th localNow utcNow r w).sinkSt = w.sinkSt
        ∧ (l.log th localNow utcNow r w).stderr = w.stderr
            ++ ["error writing to sink, falling back to stderr: " ++ e,
                formatLine (formatInstant l.time_format (nowInstant localNow utcNow))
                  th r.level r.msg]) := by
  constructor
  · intro hp
    simp [Logger.log, hp]
  · intro e hp hw
    simp [Logger.log, hp, hw]

/-- Witness for c3_log_failures_fall_back_to_stderr: a poisoned world and a
world whose sink write fails, at a concrete record. -/
theorem c3_log_failures_fall_back_to_stderr_witness :
    ((new_log.log mainThread (Except.ok okInstant) okInstant
        { level := Level.Warn, msg := "boom" }
        { sinkSt := { poisoned := true, writeErr := none, lines := [] }, stderr := [] }).sinkSt
      = { poisoned := true, writeErr := none, lines := [] }
    ∧ (new_log.log mainThread (Except.ok okInstant) okInstant
        { level := Level.Warn, msg := "boom" }
        { sinkSt := { poisoned := true, writeErr := none, lines := [] }, stderr := [] }).stderr
      = [formatLine (formatInstant new_log.time_format (nowInstant (Except.ok okInstant) okInstant))
            mainThread Level.Warn "boom"])
    ∧ ((new_log.log mainThread (Except.ok okInstant) okInstant
        { level := Level.Warn, msg := "boom" }
        { sinkSt := { poisoned := false, writeErr := some "broken pipe", lines := [] },
          stderr := [] }).sinkSt
      = { poisoned := false, writeErr := some "broken pipe", lines := [] }
    ∧ (new_log.log mainThread (Except.ok okInstant) okInstant
        { level := Level.Warn, msg := "boom" }
        { sinkSt := { poisoned := false, writeErr := some "broken pipe", lines := [] },
          stderr := [] }).stderr
      = ["error writing to sink, falling back to stderr: " ++ "broken pipe",
         formatLine (formatInstant new_log.time_format (nowInstant (Except.ok okInstant) okInstant))
            mainThread Level.Warn "boom"]) :=
  ⟨(c3_log_failures_fall_back_to_stderr new_log mainThread (Except.ok okInstant) okInstant
      { level := Level.Warn, msg := "boom" }
      { sinkSt := { poisoned := true, writeErr := none, lines := [] }, stderr := [] }).1 rfl,
   (c3_log_failures_fall_back_to_stderr new_log mainThread (Except.ok okInstant) okInstant
      { level := Level.Warn, msg := "boom" }
      { sinkSt := { poisoned := false, writeErr := some "broken pipe", lines := [] },
        stderr := [] }).2 "broken pipe" rfl rfl⟩

/-- C6: when rendering the sampled instant fails, the time field of the
emitted line is exactly the literal `time error`, every other field comes
from the inputs unchanged, and the line is still written to the sink — the
log call does not fail. -/
theorem c6_time_error_substitution {T : Type} (l : Logger T)
    (localNow : Except OffsetError Instant) (utcNow : Instant) (e : FormatError)
    (th : ThreadInfo) (lvl : Level) (m : String) (w : World)
    (h : formatInstant l.time_format (nowInstant localNow utcNow) = Except.error e)
    (hp : w.sinkSt.poisoned = false) (hw : w.sinkSt.writeErr = none) :
    l.log th localNow utcNow { level := lvl, msg := m } w
      = { w with sinkSt := { w.sinkSt with lines := w.sinkSt.lines
            ++ ["[time error] (" ++ th.name.getD "<unnamed>" ++ " " ++ th.id
                ++ ") [" ++ lvl.name ++ "] " ++ m] } } := by
  simp [Logger.log, hp, hw, h, formatLine]

/-- Witness for c6_time_error_substitution: a local instant whose RFC2822
rendering fails yields the `time error` time field on a healthy sink. -/
theorem c6_time_error_substitution_witness :
    new_log.log mainThread (Except.ok badInstant) okInstant
        { level := Level.Error, msg := "oops" } emptyWorld
      = { emptyWorld with sinkSt := { emptyWorld.sinkSt with lines :=
            ["[time error] (main ThreadId(1)) [ERROR] oops"] } } := by
  have h := c6_time_error_substitution new_log (Except.ok badInstant) okInstant
    FormatError.formatFailed mainThread Level.Error "oops" emptyWorld rfl rfl rfl
  simpa [emptyWorld, mainThread, Level.name] using h

/-- C7: replacing the destination builds a new configuration that keeps the
original time format and threshold and changes only the sink — both for
`sink` (any writable destination) and for `to_file` (a successfully opened
file). The originals are plain values here, mirroring the Rust methods
taking `&self`, so the original configuration stays usable. -/
theorem c7_destination_swap_preserves_config {T U : Type} (l : Logger T) (s : U)
    (fs : FS) (p : String) (hp : p ∉ fs.failPaths) :
    l.with_sink s
      = { sink := s, time_format := l.time_format, level := l.level }
    ∧ ∃ fs' : FS, l.to_file fs p
        = Except.ok
            (fs', { sink := { path := p }, time_format := l.time_format, level := l.level }) := by
  refine ⟨rfl, ?_⟩
  unfold Logger.to_file openAppend
  rw [if_neg hp]
  cases hl : fs.lookup p
  · exact ⟨_, rfl⟩
  · exact ⟨_, rfl⟩

/-- Witness for c7_destination_swap_preserves_config: default logger, empty
file system, fresh path. -/
theorem c7_destination_swap_preserves_config_witness :
    new_log.with_sink Stderr.handle
      = { sink := Stderr.handle, time_format := new_log.time_format, level := new_log.level }
    ∧ ∃ fs' : FS, new_log.to_file { files := [], failPaths := [] } "app.log"
        = Except.ok
            (fs', { sink := { path := "app.log" }, time_format := new_log.time_format,
                    level := new_log.level }) :=
  c7_destination_swap_preserves_config new_log Stderr.handle
    { files := [], failPaths := [] } "app.log" (List.not_mem_nil "app.log")

/-- A concrete file system: one existing file, one unopenable path. -/
def fsW : FS :=
  { files := [("a.log", "old")], failPaths := ["locked.log"] }

/-- C8: `to_file` surfaces the I/O error to the caller when the open fails;
on an existing file it leaves the file system (hence the file's contents)
completely unchanged — append, never truncate; on an absent file it creates
it empty and leaves every other file untouched. -/
theorem c8_to_file_open_semantics {T : Type} (l : Logger T) (fs : FS) (p : String) :
    (p ∈ fs.failPaths → l.to_file fs p = Except.error IoError.openFailed)
    ∧ (p ∉ fs.failPaths → ∀ c : String, fs.lookup p = some c →
        ∃ lf : Logger File, l.to_file fs p = Except.ok (fs, lf))
    ∧ (p ∉ fs.failPaths → fs.lookup p = none →
        ∃ lf : Logger File,
          l.to_file fs p = Except.ok ({ fs with files := fs.files ++ [(p, "")] }, lf)
          ∧ FS.lookup { fs with files := fs.files ++ [(p, "")] } p = some ""
          ∧ ∀ q : String, q ≠ p →
              FS.lookup { fs with files := fs.files ++ [(p, "")] } q = fs.lookup q) := by
  refine ⟨?_, ?_, ?_⟩
  · intro h
    unfold Logger.to_file openAppend
    rw [if_pos h]
  · intro h c hc
    unfold Logger.to_file openAppend
    rw [if_neg h, hc]
    exact ⟨_, rfl⟩
  · intro h hn
    have hfind : fs.files.find? (fun e => e.1 = p) = none := by
      unfold FS.lookup at hn
      cases hfi : fs.files.find? (fun e => e.1 = p)
      · rfl
      · rw [hfi] at hn
        simp at hn
    refine ⟨{ sink := { path := p }, time_format := l.time_format, level := l.level },
        ?_, ?_, ?_⟩
    · unfold Logger.to_file openAppend
      rw [if_neg h, hn]
    · unfold FS.lookup
      rw [List.find?_append]
      simp only [hfind]
      simp [List.find?]
    · intro q hq
      unfold FS.lookup
      rw [List.find?_append]
      have hpq : [(p, "")].find? (fun e => e.1 = q) = none := by
        refine List.find?_eq_none.mpr ?_
        intro x hx
        have hxp : x = (p, "") := by simpa using hx
        subst hxp
        simp only [decide_eq_true_eq]
        exact fun hh => hq hh.symm
      rw [hpq]
      cases fs.files.find? (fun e => e.1 = q) <;> rfl

/-- Witness for c8_to_file_open_semantics: all three branches on concrete
file systems and paths. -/
theorem c8_to_file_open_semantics_witness :
    new_log.to_file fsW "locked.log" = Except.error IoError.openFailed
    ∧ (∃ lf : Logger File, new_log.to_file fsW "a.log" = Except.ok (fsW, lf))
    ∧ (∃ lf : Logger File,
        new_log.to_file fsW "b.log"
          = Except.ok ({ fsW with files := fsW.files ++ [("b.log", "")] }, lf)
        ∧ FS.lookup { fsW with files := fsW.files ++ [("b.log", "")] } "b.log" = some ""
        ∧ ∀ q : String, q ≠ "b.log" →
            FS.lookup { fsW with files := fsW.files ++ [("b.log", "")] } q = fsW.lookup q) :=
  ⟨(c8_to_file_open_semantics new_log fsW "locked.log").1 (by decide),
   (c8_to_file_open_semantics new_log fsW "a.log").2.1 (by decide) "old" rfl,
   (c8_to_file_open_semantics new_log fsW "b.log").2.2 (by decide) rfl⟩

end Logout
